import Mathlib

/-!
Verification of the reader/TOC page controllers of this repository
(src/js/reader.js and src/js/act1-reader.js) against their specification.

Modelling conventions for the shallow embedding of the JavaScript source:
- JS numbers that are known to be integers (chapter indices) are Int;
  a variable that may hold null is Option Int, none standing for null.
- Pixel geometry (getBoundingClientRect coordinates, window.innerHeight,
  scrollHeight) is modelled over the rationals.
- JS truthiness on a number: 0, NaN and null are falsy, everything else
  truthy; on an Option Int this is (exists n, v = some n and n is not 0).
- Fallible storage access is an Except value; a JS try/catch block is a
  match on that Except (or Except.tryCatch).
-/

/-! ## Navigation link synthesis (src/js/reader.js, buildNavLinks / pathForIndex / injectNav) -/

/-- The table-of-contents location used throughout src/js/reader.js. -/
def tocHref : String := "../line1-patreonreader.html"

/-- An anchor synthesized by injectNav: its href and its visible text. -/
structure NavLink where
  href : String
  text : String
deriving DecidableEq, Repr

/-- Embedding of buildNavLinks (src/js/reader.js lines 15-20).
prevNum is (number > 1 ? number - 1 : null); with number = null the JS
comparison null > 1 is false.  nextNum is (number ? number + 1 : null);
null and 0 are falsy. -/
def buildNavLinks (number : Option Int) : Option Int × Option Int :=
  (match number with
   | some n => if 1 < n then some (n - 1) else none
   | none => none,
   match number with
   | some n => if n ≠ 0 then some (n + 1) else none
   | none => none)

/-- Embedding of pathForIndex (src/js/reader.js lines 22-27).
The guard (!num) is JS falsiness: null or 0. -/
def pathForIndex : Option Int → String
  | none => tocHref
  | some n =>
      if n = 0 then tocHref
      else if n = 1 then "patreonchapter-1.html"
      else "patreonchapter-" ++ toString n ++ ".html"

/-- Embedding of the three anchors built by injectNav
(src/js/reader.js lines 69-105): previous slot, middle TOC link, next slot.
The previous slot requires prevNum non-null and strictly positive
(line 72); the next slot requires nextNum truthy (line 93). -/
def injectNavLinks (chapterIndex : Option Int) : NavLink × NavLink × NavLink :=
  let pn := buildNavLinks chapterIndex
  let prev : NavLink :=
    match pn.1 with
    | some p =>
        if 0 < p then ⟨pathForIndex (some p), "Previous"⟩
        else ⟨tocHref, "Table of Contents"⟩
    | none => ⟨tocHref, "Table of Contents"⟩
  let next : NavLink :=
    match pn.2 with
    | some q =>
        if q ≠ 0 then ⟨pathForIndex (some q), "Next"⟩
        else ⟨tocHref, "End of Act"⟩
    | none => ⟨tocHref, "End of Act"⟩
  (prev, ⟨tocHref, "Table of Contents"⟩, next)

/-- C1: for every chapter ordinal n with n at least 2 the synthesized
previous link targets the page for ordinal n-1 (the index-to-path mapping
produces the string patreonchapter-(n-1).html there); for every ordinal
at most 1 and for an absent (null) ordinal the previous slot is a
table-of-contents link instead. -/
theorem c1_prev_link (n : Option Int) (k : Int) :
    (injectNavLinks n).1 =
      (match n with
       | some m =>
           if 2 ≤ m then
             NavLink.mk ("patreonchapter-" ++ toString (m - 1) ++ ".html") "Previous"
           else NavLink.mk tocHref "Table of Contents"
       | none => NavLink.mk tocHref "Table of Contents") ∧
    pathForIndex (some k) =
      (if k = 0 then tocHref else "patreonchapter-" ++ toString k ++ ".html") := by
  constructor
  · cases n with
    | none => rfl
    | some m =>
        simp only [injectNavLinks, buildNavLinks]
        by_cases h1 : 1 < m
        · have h2 : 2 ≤ m := h1
          simp only [if_pos h1, if_pos h2]
          have hp : 0 < m - 1 := by omega
          simp only [if_pos hp, pathForIndex]
          have hne : ¬(m - 1 = 0) := by omega
          rw [if_neg hne]
          by_cases he : m - 1 = 1
          · rw [if_pos he, he]
            decide
          · rw [if_neg he]
        · have h2 : ¬(2 ≤ m) := by omega
          simp only [if_neg h1, if_neg h2]
  · simp only [pathForIndex]
    by_cases h0 : k = 0
    · simp [h0]
    · rw [if_neg h0, if_neg h0]
      by_cases h1 : k = 1
      · rw [if_pos h1, h1]
        decide
      · rw [if_neg h1]

/-- C2: for every chapter ordinal whose next ordinal is determined by
buildNavLinks (every nonzero ordinal other than -1, hence every positive
ordinal), the synthesized next link targets patreonchapter-(n+1).html;
for ordinal 0 (the prologue) and for an absent ordinal no next ordinal is
determined and the next slot is the End of Act fallback pointing at the
table of contents. -/
theorem c2_next_link (n : Option Int) :
    (injectNavLinks n).2.2 =
      (match n with
       | some m =>
           if m = 0 ∨ m = -1 then NavLink.mk tocHref "End of Act"
           else NavLink.mk ("patreonchapter-" ++ toString (m + 1) ++ ".html") "Next"
       | none => NavLink.mk tocHref "End of Act") ∧
    (match n with
     | some m => (buildNavLinks n).2 = (if m = 0 then none else some (m + 1))
     | none => (buildNavLinks n).2 = none) := by
  constructor
  · cases n with
    | none => rfl
    | some m =>
        by_cases h0 : m = 0
        · simp [injectNavLinks, buildNavLinks, h0]
        · by_cases hm1 : m = -1
          · subst hm1
            decide
          · have hq : m + 1 ≠ 0 := by omega
            have hq1 : m + 1 ≠ 1 := by omega
            have hor : ¬(m = 0 ∨ m = -1) := by
              intro h
              rcases h with h | h
              · exact h0 h
              · exact hm1 h
            simp [injectNavLinks, buildNavLinks, pathForIndex, h0, hm1, hq, hq1, hor]
  · cases n with
    | none => rfl
    | some m =>
        simp only [buildNavLinks]
        by_cases h0 : m = 0
        · simp [h0]
        · rw [if_pos h0, if_neg h0]

/-- C3: the navigation mapping is pure and total: for every input,
including 0, 1, negative and arbitrarily large ordinals as well as an
absent ordinal, buildNavLinks returns a pair and pathForIndex returns a
nonempty string; no error branch exists. -/
theorem c3_nav_total (n : Option Int) :
    (∃ p q : Option Int, buildNavLinks n = (p, q)) ∧
    0 < (pathForIndex n).length := by
  refine ⟨⟨(buildNavLinks n).1, (buildNavLinks n).2, rfl⟩, ?_⟩
  cases n with
  | none => decide
  | some m =>
      simp only [pathForIndex]
      by_cases h0 : m = 0
      · rw [if_pos h0]; decide
      · rw [if_neg h0]
        by_cases h1 : m = 1
        · rw [if_pos h1]; decide
        · rw [if_neg h1]
          rw [String.length_append, String.length_append]
          have : 0 < ("patreonchapter-".length) := by decide
          omega

/-! ## Reading-progress computation (src/js/reader.js, updateProgress, lines 155-166) -/

/-- JS Math.round: round half away from zero upward, i.e. floor (x + 1/2). -/
def jsRound (x : ℚ) : ℤ := ⌊x + 1 / 2⌋

/-- What one call of updateProgress writes: the bar width, the percent
label and the value persisted to storage (none models the JS number NaN,
which is stringified as "NaN" when stored). -/
structure ProgressOut where
  bar : String
  label : String
  stored : Option ℚ
deriving DecidableEq, Repr

/-- Embedding of updateProgress (src/js/reader.js lines 155-166) over the
page geometry: rect.top, rect.bottom of article.getBoundingClientRect()
and window.innerHeight.  rect.height is rect.bottom - rect.top.  When
rect.height = 0 the JS division visible / rect.height is NaN (visible is
then necessarily 0), NaN propagates through Math.round, Math.min and
Math.max, the bar and label show "NaN%" and String(NaN / 100) = "NaN" is
persisted; the branch on height = 0 embeds that propagation. -/
def updateProgress (top bottom windowH : ℚ) : ProgressOut :=
  let height := bottom - top
  let visible := max 0 (min bottom windowH - max top 0)
  if height = 0 then ⟨"NaN%", "NaN%", none⟩
  else
    let clamped := max 0 (min 100 (jsRound (visible / height * 100)))
    ⟨toString clamped ++ "%", toString clamped ++ "%", some ((clamped : ℚ) / 100)⟩

/-- C4 counterexample: with a degenerate content region of height zero
(rect.top = rect.bottom = 0, viewport height 500) the displayed
percentage is "NaN%" and the persisted value is NaN, not an integer in
[0,100] divided by 100; the claim fails for this geometry. -/
theorem c4_counterexample :
    updateProgress 0 0 500 = ⟨"NaN%", "NaN%", none⟩ := by
  simp [updateProgress]

/-- C4 amended: for every geometry whose content region has nonzero
height, one call of updateProgress displays an integer percentage in
[0,100] as both bar width and label, and persists exactly that integer
divided by 100, a value in [0,1]. -/
theorem c4_progress_clamped (top bottom windowH : ℚ) (h : bottom ≠ top) :
    ∃ c : ℤ, 0 ≤ c ∧ c ≤ 100 ∧
      updateProgress top bottom windowH =
        ⟨toString c ++ "%", toString c ++ "%", some ((c : ℚ) / 100)⟩ ∧
      0 ≤ (c : ℚ) / 100 ∧ (c : ℚ) / 100 ≤ 1 := by
  have hh : bottom - top ≠ 0 := sub_ne_zero.mpr h
  refine ⟨max 0 (min 100 (jsRound (max 0 (min bottom windowH - max top 0) / (bottom - top) * 100))),
    le_max_left _ _, ?_, ?_, ?_, ?_⟩
  · exact max_le (by norm_num) (min_le_left _ _)
  · simp only [updateProgress, if_neg hh]
  · positivity
  · rw [div_le_one (by norm_num)]
    have : max 0 (min 100 (jsRound (max 0 (min bottom windowH - max top 0) / (bottom - top) * 100))) ≤ 100 :=
      max_le (by norm_num) (min_le_left _ _)
    exact_mod_cast this

/-- C4 amended witness: the spec scenario, content region of height 1000
with its top at 0 and a 500 pixel viewport. -/
theorem c4_progress_clamped_witness :
    ∃ c : ℤ, 0 ≤ c ∧ c ≤ 100 ∧
      updateProgress 0 1000 500 =
        ⟨toString c ++ "%", toString c ++ "%", some ((c : ℚ) / 100)⟩ ∧
      0 ≤ (c : ℚ) / 100 ∧ (c : ℚ) / 100 ≤ 1 :=
  c4_progress_clamped 0 1000 500 (by norm_num)

/-! ## Scroll-position restore (src/js/reader.js, init, lines 142-152) -/

/-- Embedding of the restore decision in init (lines 142-152).  The
argument val is the stored string after the saved-truthiness check and
parseFloat: none models an absent entry, an empty string, or a
non-numeric string (parseFloat NaN, rejected by Number.isNaN); some v a
parsed finite value.  The result is the scrollTo target, none when no
scroll is performed. -/
def restoreScrollTarget (val : Option ℚ) (scrollHeight innerHeight : ℚ) : Option ℤ :=
  match val with
  | none => none
  | some v =>
      if 0 < v ∧ v < 1 then some ⌊(scrollHeight - innerHeight) * v⌋ else none

/-- Viewport vertical offset after the restore block ran: the scrollTo
target when the guard fired, the unchanged current offset otherwise. -/
def restoreFinalY (val : Option ℚ) (scrollHeight innerHeight : ℚ) (currentY : ℤ) : ℤ :=
  match restoreScrollTarget val scrollHeight innerHeight with
  | none => currentY
  | some y => y

/-- C5 counterexample: with stored value 0.5, scroll height 2001 and
viewport height 500 the code scrolls to Math.floor(1501 * 0.5) = 750,
which differs from the claimed offset v * (scrollable height) = 750.5. -/
theorem c5_counterexample :
    restoreScrollTarget (some (1 / 2)) 2001 500 = some 750 ∧
    ((750 : ℚ) ≠ (1 / 2 : ℚ) * (2001 - 500)) := by
  constructor
  · show (if (0 : ℚ) < 1 / 2 ∧ (1 / 2 : ℚ) < 1 then
        some ⌊((2001 : ℚ) - 500) * (1 / 2)⌋ else none) = some 750
    rw [if_pos (by norm_num)]
    congr 1
    rw [show ((2001 : ℚ) - 500) * (1 / 2) = 1501 / 2 by norm_num]
    rw [Int.floor_eq_iff]
    norm_num
  · norm_num

/-- C5 amended: restoring is a no-op (the viewport offset is unchanged)
for an absent or non-numeric stored value and for every value v with
v ≤ 0 or v ≥ 1; for 0 < v < 1 the viewport is scrolled to
floor(v * (scroll height - viewport height)). -/
theorem c5_restore (v scrollHeight innerHeight : ℚ) (y : ℤ) :
    restoreFinalY none scrollHeight innerHeight y = y ∧
    (v ≤ 0 ∨ 1 ≤ v → restoreFinalY (some v) scrollHeight innerHeight y = y) ∧
    (0 < v → v < 1 →
      restoreFinalY (some v) scrollHeight innerHeight y =
          ⌊(scrollHeight - innerHeight) * v⌋ ∧
        restoreScrollTarget (some v) scrollHeight innerHeight =
          some ⌊(scrollHeight - innerHeight) * v⌋) := by
  refine ⟨rfl, ?_, ?_⟩
  · intro hv
    have hg : ¬(0 < v ∧ v < 1) := by
      rcases hv with hv | hv
      · exact fun hc => absurd hc.1 (not_lt.mpr hv)
      · exact fun hc => absurd hc.2 (not_lt.mpr hv)
    simp [restoreFinalY, restoreScrollTarget, hg]
  · intro h0 h1
    have hg : 0 < v ∧ v < 1 := ⟨h0, h1⟩
    constructor
    · simp [restoreFinalY, restoreScrollTarget, hg]
    · simp [restoreScrollTarget, hg]

/-- C5 amended witness: the spec scenario, stored value 0.5 with
scrollable height 2000 - 500 = 1500, scrolling to 750; and the no-op at
stored value 2. -/
theorem c5_restore_witness :
    restoreFinalY (some 2) 2000 500 0 = 0 ∧
    restoreFinalY (some (1 / 2)) 2000 500 0 = 750 := by
  constructor
  · exact (c5_restore 2 2000 500 0).2.1 (Or.inr (by norm_num))
  · have h := ((c5_restore (1 / 2) 2000 500 0).2.2 (by norm_num) (by norm_num)).1
    rw [h, show ((2000 : ℚ) - 500) * (1 / 2) = (750 : ℤ) by norm_num]
    exact Int.floor_intCast 750

/-! ## Collapsible navigation toggle (src/js/reader.js, init, lines 125-139) -/

/-- State touched by the toggle click handler: the aria-expanded
attribute of the toggle button (none when absent), presence of the
is-open class on the nav element and of the is-expanded class on the
links element. -/
structure ToggleState where
  ariaExpanded : Option String
  isOpen : Bool
  isExpanded : Bool
deriving DecidableEq, Repr

/-- Embedding of the toggle click handler (src/js/reader.js lines
132-137): expanded is (getAttribute aria-expanded === 'true'); the
handler writes String(not expanded) back and forces both classes to
(not expanded). -/
def toggleClick (s : ToggleState) : ToggleState :=
  let expanded : Bool := s.ariaExpanded == some "true"
  { ariaExpanded := some (if expanded then "false" else "true"),
    isOpen := !expanded,
    isExpanded := !expanded }

/-- C6 counterexample: from the initial state with aria-expanded "false"
but both visual classes present, two activations end with both classes
absent, not the original state; double activation is not the identity on
every initial state. -/
theorem c6_counterexample :
    toggleClick (toggleClick ⟨some "false", true, true⟩) ≠
      (⟨some "false", true, true⟩ : ToggleState) := by
  decide

/-- C6 amended: on every consistent initial state - aria-expanded is
exactly "true" or "false" and each visual class is present exactly when
it is "true" - two activations of the toggle restore the aria attribute
and both classes to their original values. -/
theorem c6_toggle_involutive (b : Bool) :
    toggleClick (toggleClick ⟨some (if b then "true" else "false"), b, b⟩) =
      (⟨some (if b then "true" else "false"), b, b⟩ : ToggleState) := by
  cases b <;> decide

/-! ## Animation-frame throttle (src/js/reader.js, onScroll, lines 168-179) -/

/-- The throttle state: the ticking flag and the number of callbacks
currently queued with requestAnimationFrame. -/
structure ThrottleState where
  ticking : Bool
  pending : Nat
deriving DecidableEq, Repr

/-- Embedding of onScroll (src/js/reader.js lines 169-174): when ticking
is unset, queue one animation-frame callback and set ticking. -/
def onScrollStep (s : ThrottleState) : ThrottleState :=
  if s.ticking then s else { ticking := true, pending := s.pending + 1 }

/-- At an animation-frame boundary every queued callback runs: each runs
updateProgress once and clears ticking.  The state afterwards. -/
def frameStep (s : ThrottleState) : ThrottleState :=
  { ticking := if 0 < s.pending then false else s.ticking, pending := 0 }

/-- The number of updateProgress executions the next animation frame
performs from state s: one per queued callback. -/
def frameRuns (s : ThrottleState) : Nat := s.pending

/-- Events driving the throttle: scroll and resize both invoke onScroll
(lines 176-177); frame is an animation-frame boundary. -/
inductive ReaderEvent where
  | scroll
  | resize
  | frame
deriving DecidableEq, Repr

/-- One step of the throttle state machine. -/
def throttleStep (s : ThrottleState) : ReaderEvent → ThrottleState
  | .scroll => onScrollStep s
  | .resize => onScrollStep s
  | .frame => frameStep s

/-- The throttle state after an arbitrary event sequence from the
initial state (ticking unset, nothing queued). -/
def throttleRun (evs : List ReaderEvent) : ThrottleState :=
  evs.foldl throttleStep ⟨false, 0⟩

/-- The throttle invariant: exactly one callback is queued while ticking
is set, none otherwise. -/
theorem throttleStep_inv (s : ThrottleState) (e : ReaderEvent)
    (h : s.pending = if s.ticking then 1 else 0) :
    (throttleStep s e).pending = if (throttleStep s e).ticking then 1 else 0 := by
  cases e with
  | scroll =>
      by_cases ht : s.ticking <;> simp [throttleStep, onScrollStep, ht] <;> simp [ht] at h <;> omega
  | resize =>
      by_cases ht : s.ticking <;> simp [throttleStep, onScrollStep, ht] <;> simp [ht] at h <;> omega
  | frame =>
      by_cases hp : 0 < s.pending
      · simp [throttleStep, frameStep, hp]
      · have hp0 : s.pending = 0 := by omega
        have ht : s.ticking = false := by
          by_cases ht : s.ticking
          · rw [if_pos ht] at h; omega
          · exact eq_false_of_ne_true ht
        simp [throttleStep, frameStep, hp, ht]

/-- C9: for every sequence of scroll, resize and animation-frame events
from initialization, at most one updateProgress callback is ever queued,
so the next animation frame runs updateProgress at most once; bursts of
scroll and resize events between two consecutive frames are coalesced
into a single recomputation. -/
theorem c9_throttle_once (evs : List ReaderEvent) :
    frameRuns (throttleRun evs) ≤ 1 := by
  suffices h : ∀ (s : ThrottleState), s.pending = (if s.ticking then 1 else 0) →
      (evs.foldl throttleStep s).pending = (if (evs.foldl throttleStep s).ticking then 1 else 0) by
    have hrun := h ⟨false, 0⟩ (by simp)
    unfold frameRuns throttleRun
    rw [hrun]
    split <;> omega
  induction evs with
  | nil => intro s hs; exact hs
  | cons e rest ih =>
      intro s hs
      exact ih (throttleStep s e) (throttleStep_inv s e hs)

/-! ## Persistent storage and its failure semantics
(src/js/reader.js lines 142-152 and 165; src/js/act1-reader.js lines 36-49) -/

/-- The browser-local key/value store together with a flag saying whether
every access throws (storage disabled / quota exceeded).  An access is an
Except value; error is the thrown exception. -/
structure StoreModel where
  failing : Bool
  entries : List (String × String)
deriving DecidableEq, Repr

/-- localStorage.getItem: throws when the store is failing, otherwise
returns the most recent value stored under the key, if any. -/
def getItem (st : StoreModel) (k : String) : Except Unit (Option String) :=
  if st.failing then .error ()
  else .ok ((st.entries.find? (fun e => e.1 == k)).map (fun e => e.2))

/-- localStorage.setItem: throws when the store is failing, otherwise
prepends the new binding (getItem reads the most recent one). -/
def setItem (st : StoreModel) (k v : String) : Except Unit StoreModel :=
  if st.failing then .error () else .ok ⟨st.failing, (k, v) :: st.entries⟩

/-- Embedding of the guarded restore read in init (src/js/reader.js lines
142-152): the try block reads the stored value and computes a scroll
target from it (rest is that pure remainder, none when no scroll is
performed); the catch clause ignores the storage error and scrolls
nowhere. -/
def readerRestoreCaught (st : StoreModel) (key : String)
    (rest : Option String → Option Int) : Except Unit (Option Int) :=
  Except.tryCatch (Except.map rest (getItem st key)) (fun _ => pure none)

/-- Embedding of the guarded persist in updateProgress (src/js/reader.js
line 165): try setItem, and on a storage error leave the store as it
was and continue. -/
def readerPersistCaught (st : StoreModel) (key v : String) : StoreModel :=
  match setItem st key v with
  | .ok st' => st'
  | .error _ => st

/-- The part of the TOC page state touched by setProgress
(src/js/act1-reader.js): the progress element value, its aria-valuenow
attribute, and the position of the card carrying data-last, if any. -/
structure TocPageState where
  progressValue : Int
  ariaValueNow : String
  lastMarker : Option Nat
deriving DecidableEq, Repr

/-- Embedding of setProgress (src/js/act1-reader.js lines 36-45).  items
is the list of per-card indices parseInt(a.dataset.index, 10) || 0; the
guard (!index) is JS falsiness (0; also NaN, null, undefined, which the
Int model folds into 0).  The localStorage.setItem call on line 38 is
not wrapped in try/catch, so a storage error propagates out of
setProgress before the progress element or the markers are touched. -/
def setProgress (st : StoreModel) (items : List Int) (page : TocPageState)
    (index : Int) : Except Unit (StoreModel × TocPageState) :=
  if index = 0 then .ok (st, page)
  else do
    let st' ← setItem st "act1-last-read" (toString index)
    let v : Int := min (items.length : Int) index
    pure (st', { progressValue := v, ariaValueNow := toString v,
                 lastMarker := items.findIdx? (fun a => a == index) })

/-- C8 counterexample: with a failing store, calling the TOC controller's
setProgress with index 1 propagates the storage exception instead of
catching and ignoring it; not every storage access of the controllers is
guarded. -/
theorem c8_counterexample :
    setProgress ⟨true, []⟩ [] ⟨0, "0", none⟩ 1 = .error () := by
  rfl

/-- C8 amended: every storage access of the Reader Controller (the
restore read at init and the progress write in updateProgress) is
wrapped in try/catch and completes without propagating an error - on a
failing store the restore scrolls nowhere and the persist leaves the
store unchanged - while the TOC controller's setProgress write is
unguarded and propagates the failure for every nonzero index. -/
theorem c8_reader_caught (st : StoreModel) (key v : String)
    (rest : Option String → Option Int) :
    (∃ r, readerRestoreCaught st key rest = .ok r) ∧
    (st.failing = true →
      readerRestoreCaught st key rest = .ok none ∧
      readerPersistCaught st key v = st ∧
      ∀ (items : List Int) (page : TocPageState) (i : Int), i ≠ 0 →
        setProgress st items page i = .error ()) := by
  constructor
  · by_cases hf : st.failing
    · exact ⟨none, by simp [readerRestoreCaught, getItem, Except.tryCatch, Except.map, hf, pure, Except.pure]⟩
    · exact ⟨rest ((st.entries.find? (fun e => e.1 == key)).map (fun e => e.2)),
        by simp [readerRestoreCaught, getItem, Except.tryCatch, Except.map, hf, pure, Except.pure]⟩
  · intro hf
    refine ⟨by simp [readerRestoreCaught, getItem, Except.tryCatch, Except.map, hf, pure, Except.pure], ?_, ?_⟩
    · simp [readerPersistCaught, setItem, hf]
    · intro items page i hi
      simp [setProgress, setItem, hf, hi]

/-- C8 amended witness: a failing store with one pending read and write. -/
theorem c8_reader_caught_witness :
    readerRestoreCaught ⟨true, []⟩ "k" (fun _ => none) = .ok none ∧
    readerPersistCaught ⟨true, []⟩ "k" "v" = ⟨true, []⟩ ∧
    setProgress ⟨true, []⟩ [] ⟨0, "0", none⟩ 2 = .error () := by
  have h := (c8_reader_caught ⟨true, []⟩ "k" "v" (fun _ => none)).2 rfl
  exact ⟨h.1, h.2.1, h.2.2 [] ⟨0, "0", none⟩ 2 (by decide)⟩

/-- C10: calling the TOC controller's setProgress with the falsy index 0
(the prologue ordinal) is a complete no-op: the store, the progress
element value, aria-valuenow and the last-read marker are all returned
unchanged, and no error is raised. -/
theorem c10_setProgress_falsy_noop (st : StoreModel) (items : List Int)
    (page : TocPageState) :
    setProgress st items page 0 = .ok (st, page) := by
  rfl

/-! ## Storage key (src/js/reader.js, init, lines 54-58)
Auxiliary facts about the decimal rendering used by JS template
interpolation, relating the core rendering function to Nat.digits. -/

theorem toDigitsCore_digits (fuel : Nat) : ∀ (n : Nat) (ds : List Char), n < fuel →
    Nat.toDigitsCore 10 fuel n ds =
      (if n = 0 then ['0'] else ((Nat.digits 10 n).map Nat.digitChar).reverse) ++ ds := by
  induction fuel with
  | zero => intro n ds h; omega
  | succ fuel ih =>
      intro n ds _
      by_cases h0 : n = 0
      · subst h0
        simp [Nat.toDigitsCore]
        decide
      · by_cases hdiv : n / 10 = 0
        · have hlt : n < 10 := by omega
          simp only [Nat.toDigitsCore, hdiv, if_pos, if_neg h0]
          rw [Nat.digits_def' (by norm_num : (1 : Nat) < 10) (Nat.pos_of_ne_zero h0), hdiv,
            Nat.digits_zero]
          simp
        · have hn' : n / 10 < fuel := by
            have : n / 10 < n := Nat.div_lt_self (Nat.pos_of_ne_zero h0) (by norm_num)
            omega
          simp only [Nat.toDigitsCore, hdiv, if_neg h0]
          rw [ih (n / 10) (Nat.digitChar (n % 10) :: ds) hn']
          rw [if_neg hdiv]
          rw [Nat.digits_def' (by norm_num : (1 : Nat) < 10) (Nat.pos_of_ne_zero h0)]
          simp [List.append_assoc]

theorem natRepr_eq_digits (n : Nat) :
    Nat.repr n =
      ((if n = 0 then ['0'] else ((Nat.digits 10 n).map Nat.digitChar).reverse)).asString := by
  show (Nat.toDigits 10 n).asString = _
  rw [Nat.toDigits, toDigitsCore_digits (n + 1) n [] (Nat.lt_succ_self n), List.append_nil]

theorem digitChar_inj_lt {a b : Nat} (ha : a < 10) (hb : b < 10)
    (h : Nat.digitChar a = Nat.digitChar b) : a = b := by
  have key : ∀ x y : Fin 10, Nat.digitChar x.val = Nat.digitChar y.val → x = y := by decide
  exact congrArg Fin.val (key ⟨a, ha⟩ ⟨b, hb⟩ h)

theorem digitChar_isDigit {a : Nat} (ha : a < 10) : (Nat.digitChar a).isDigit = true := by
  have key : ∀ x : Fin 10, (Nat.digitChar x.val).isDigit = true := by decide
  exact key ⟨a, ha⟩

theorem map_digitChar_inj : ∀ (l1 l2 : List Nat), (∀ x ∈ l1, x < 10) → (∀ x ∈ l2, x < 10) →
    l1.map Nat.digitChar = l2.map Nat.digitChar → l1 = l2 := by
  intro l1
  induction l1 with
  | nil =>
      intro l2 _ _ h
      cases l2 with
      | nil => rfl
      | cons b t2 => simp at h
  | cons a t ih =>
      intro l2 h1 h2 h
      cases l2 with
      | nil => simp at h
      | cons b t2 =>
          simp only [List.map_cons, List.cons.injEq] at h
          have hab : a = b := digitChar_inj_lt (h1 a (by simp)) (h2 b (by simp)) h.1
          have ht : t = t2 :=
            ih t2 (fun x hx => h1 x (by simp [hx])) (fun x hx => h2 x (by simp [hx])) h.2
          rw [hab, ht]

theorem string_eq_of_data {a b : String} (h : a.data = b.data) : a = b := by
  cases a
  cases b
  exact congrArg String.mk h

theorem natRepr_injective {m n : Nat} (h : Nat.repr m = Nat.repr n) : m = n := by
  rw [natRepr_eq_digits, natRepr_eq_digits] at h
  have h' : (if m = 0 then ['0'] else ((Nat.digits 10 m).map Nat.digitChar).reverse) =
      (if n = 0 then ['0'] else ((Nat.digits 10 n).map Nat.digitChar).reverse) :=
    congrArg String.data h
  have zero_case : ∀ k : Nat, k ≠ 0 →
      ((Nat.digits 10 k).map Nat.digitChar).reverse ≠ ['0'] := by
    intro k hk hrev
    have hmap : (Nat.digits 10 k).map Nat.digitChar = List.map Nat.digitChar [0] := by
      have := congrArg List.reverse hrev
      simpa using this
    have hdig : Nat.digits 10 k = [0] :=
      map_digitChar_inj _ _ (fun x hx => Nat.digits_lt_base (by norm_num) hx)
        (by intro x hx; simp at hx; omega) hmap
    have hofd := Nat.ofDigits_digits 10 k
    rw [hdig] at hofd
    simp [Nat.ofDigits] at hofd
    exact hk hofd.symm
  by_cases hm : m = 0 <;> by_cases hn : n = 0
  · omega
  · rw [if_pos hm, if_neg hn] at h'
    exact absurd h'.symm (zero_case n hn)
  · rw [if_neg hm, if_pos hn] at h'
    exact absurd h' (zero_case m hm)
  · rw [if_neg hm, if_neg hn] at h'
    have hmap : (Nat.digits 10 m).map Nat.digitChar = (Nat.digits 10 n).map Nat.digitChar := by
      have := congrArg List.reverse h'
      simpa using this
    have := map_digitChar_inj _ _ (fun x hx => Nat.digits_lt_base (by norm_num) hx)
      (fun x hx => Nat.digits_lt_base (by norm_num) hx) hmap
    exact Nat.digits_inj_iff.mp this

theorem natRepr_chars_isDigit (n : Nat) : ∀ c ∈ (Nat.repr n).data, c.isDigit = true := by
  rw [natRepr_eq_digits]
  intro c hc
  by_cases h0 : n = 0
  · rw [if_pos h0] at hc
    simp only [List.asString] at hc
    simp at hc
    subst hc
    decide
  · rw [if_neg h0] at hc
    simp only [List.asString] at hc
    rw [List.mem_reverse] at hc
    rcases List.mem_map.mp hc with ⟨d, hd, rfl⟩
    exact digitChar_isDigit (Nat.digits_lt_base (by norm_num) hd)

theorem intToString_ofNat (m : Nat) : toString (Int.ofNat m) = Nat.repr m := rfl

theorem intToString_negSucc (m : Nat) :
    toString (Int.negSucc m) = "-" ++ Nat.repr (m + 1) := rfl

theorem natRepr_head_not_dash (m : Nat) (l : List Char)
    (h : (Nat.repr m).data = '-' :: l) : False := by
  have hmem : '-' ∈ (Nat.repr m).data := by
    rw [h]
    exact List.mem_cons_self _ _
  have := natRepr_chars_isDigit m '-' hmem
  exact absurd this (by decide)

theorem intToString_injective {i j : Int} (h : toString i = toString j) : i = j := by
  cases i with
  | ofNat m =>
      cases j with
      | ofNat n =>
          rw [intToString_ofNat, intToString_ofNat] at h
          exact congrArg Int.ofNat (natRepr_injective h)
      | negSucc n =>
          exfalso
          rw [intToString_ofNat, intToString_negSucc] at h
          have hd := congrArg String.data h
          rw [String.data_append] at hd
          exact natRepr_head_not_dash m _ hd
  | negSucc m =>
      cases j with
      | ofNat n =>
          exfalso
          rw [intToString_negSucc, intToString_ofNat] at h
          have hd := congrArg String.data h.symm
          rw [String.data_append] at hd
          exact natRepr_head_not_dash n _ hd
      | negSucc n =>
          rw [intToString_negSucc, intToString_negSucc] at h
          have hd := congrArg String.data h
          rw [String.data_append, String.data_append] at hd
          have hdata : (Nat.repr (m + 1)).data = (Nat.repr (n + 1)).data :=
            List.append_cancel_left hd
          have h2 := natRepr_injective (string_eq_of_data hdata)
          have hmn : m = n := by omega
          rw [hmn]

theorem intToString_ne_prologue (n : Int) : toString n ≠ "prologue" := by
  cases n with
  | ofNat m =>
      intro h
      rw [intToString_ofNat] at h
      have hd := congrArg String.data h
      have hmem : 'p' ∈ (Nat.repr m).data := by
        rw [hd]
        decide
      have := natRepr_chars_isDigit m 'p' hmem
      exact absurd this (by decide)
  | negSucc m =>
      intro h
      rw [intToString_negSucc] at h
      have hd := congrArg String.data h
      rw [String.data_append] at hd
      have : ('-' : Char) = 'p' := List.head_eq_of_cons_eq hd
      exact absurd this (by decide)

/-- Embedding of the storage key construction (src/js/reader.js line 58):
the template ashbones:act1:chapter:SEG:scroll, where SEG is the string
'prologue' when chapterIndex === 0, the decimal rendering of
chapterIndex when it is a nonzero number, and the fallback article.id
when chapterIndex is null (chapterIndex || article.id). -/
def storageKeySeg (chapterIndex : Option Int) (id : String) : String :=
  match chapterIndex with
  | some n => if n = 0 then "prologue" else toString n
  | none => id

/-- The full storage key of src/js/reader.js line 58. -/
def storageKey (chapterIndex : Option Int) (id : String) : String :=
  "ashbones:act1:chapter:" ++ storageKeySeg chapterIndex id ++ ":scroll"

/-- A chapter identity as the claim enumerates them.  The prologue is
ordinal 0 (chapterIndex = 0, whether from the prologue flag or from
data-number 0); numeric identities carry the parsed data-number; a
fallback identity carries article.id and only arises on pages with no
numeric index and no prologue flag, so its id is never 'prologue'. -/
inductive ChapterId where
  | numeric (n : Int)
  | fallback (id : String)
deriving DecidableEq, Repr

/-- The storage key a chapter identity receives (src/js/reader.js
line 58): a numeric identity has chapterIndex some n, a fallback
identity has chapterIndex null and contributes article.id. -/
def ChapterId.key : ChapterId → String
  | .numeric n => storageKey (some n) ""
  | .fallback id => storageKey none id

theorem storageKeySeg_inj {a b : String}
    (h : "ashbones:act1:chapter:" ++ a ++ ":scroll" =
      "ashbones:act1:chapter:" ++ b ++ ":scroll") : a = b := by
  have hd := congrArg String.data h
  simp only [String.data_append] at hd
  have h1 := List.append_cancel_right hd
  exact string_eq_of_data (List.append_cancel_left h1)

/-- C7 counterexample: the numeric identity 7 and the fallback
identifier "7" are distinct chapter identities, yet both map to the
storage key ashbones:act1:chapter:7:scroll; the key function is not
injective on all distinct chapter identities. -/
theorem c7_counterexample :
    ChapterId.key (ChapterId.numeric 7) = ChapterId.key (ChapterId.fallback "7") ∧
    ChapterId.numeric 7 ≠ ChapterId.fallback "7" := by
  constructor
  · decide
  · intro h
    cases h

/-- C7 amended: the storage key is deterministic and injective within
each identity category - on numeric identities (the prologue, ordinal 0,
included) and on fallback identifiers - and a fallback identifier other
than 'prologue' (the only kind that occurs, since the fallback is used
only when the page is not a prologue) never collides with the prologue
key; but a fallback identifier equal to the decimal rendering of a
nonzero numeric index does collide with that index's key. -/
theorem c7_storage_key (m n : Int) (s t : String) :
    (ChapterId.key (ChapterId.numeric m) = ChapterId.key (ChapterId.numeric n) → m = n) ∧
    (ChapterId.key (ChapterId.fallback s) = ChapterId.key (ChapterId.fallback t) → s = t) ∧
    (s ≠ "prologue" →
      ChapterId.key (ChapterId.fallback s) ≠ ChapterId.key (ChapterId.numeric 0)) ∧
    (n ≠ 0 →
      ChapterId.key (ChapterId.fallback (toString n)) = ChapterId.key (ChapterId.numeric n)) := by
  refine ⟨?_, ?_, ?_, ?_⟩
  · intro h
    have hseg : storageKeySeg (some m) "" = storageKeySeg (some n) "" := storageKeySeg_inj h
    by_cases hm : m = 0 <;> by_cases hn : n = 0
    · omega
    · rw [storageKeySeg, storageKeySeg, if_pos hm, if_neg hn] at hseg
      exact absurd hseg.symm (intToString_ne_prologue n)
    · rw [storageKeySeg, storageKeySeg, if_neg hm, if_pos hn] at hseg
      exact absurd hseg (intToString_ne_prologue m)
    · rw [storageKeySeg, storageKeySeg, if_neg hm, if_neg hn] at hseg
      exact intToString_injective hseg
  · intro h
    exact storageKeySeg_inj h
  · intro hs h
    have hseg : storageKeySeg none s = storageKeySeg (some 0) "" := storageKeySeg_inj h
    rw [storageKeySeg, storageKeySeg, if_pos rfl] at hseg
    exact hs hseg
  · intro hn
    show storageKey none (toString n) = storageKey (some n) ""
    rw [storageKey, storageKey, storageKeySeg, storageKeySeg, if_neg hn]

/-- C7 amended witness: numeric injectivity at 5, the fallback "a"
avoiding the prologue key, and the collision at index 5. -/
theorem c7_storage_key_witness :
    (5 : Int) = 5 ∧
    ChapterId.key (ChapterId.fallback "a") ≠ ChapterId.key (ChapterId.numeric 0) ∧
    ChapterId.key (ChapterId.fallback (toString (5 : Int))) =
      ChapterId.key (ChapterId.numeric 5) := by
  refine ⟨(c7_storage_key 5 5 "a" "a").1 rfl, ?_, ?_⟩
  · exact (c7_storage_key 5 5 "a" "a").2.2.1 (by decide)
  · exact (c7_storage_key 5 5 "a" "a").2.2.2 (by decide)
